import Mathlib

/-!
Shallow embedding of the `datadog_logs` sink (`src/sinks/datadog/logs.rs`):
the request builder `DatadogLogsConfig::build_request`, the two `HttpSink`
services (text and JSON), and the `healthcheck` response interpretation.

Byte vectors are modelled as `List Nat` (each entry < 256 for real inputs).
External libraries at the boundary are modelled as parameters:
`flate2`'s gzip encoder as a function `gz : Nat → List Nat → List Nat`
(level, input bytes, output bytes) and `serde_json` body parsing in the
healthcheck as `parse : String → Except String Json`.
-/

/-- Minimal JSON value model, mirroring `serde_json::Value` as used by the
sink: the JSON service's items (`BoxedRawValue`) and the healthcheck's parsed
body are JSON values. -/
inductive Json where
  | null
  | bool (b : Bool)
  | num (n : Int)
  | str (s : String)
  | arr (xs : List Json)
  | obj (fields : List (String × Json))

/-- One hex digit, lowercase, as `serde_json` prints control escapes. -/
def hexDigit (n : Nat) : String :=
  if n < 10 then String.singleton (Char.ofNat (48 + n))
  else String.singleton (Char.ofNat (87 + n))

/-- Four hex digits for a `\u....` escape. -/
def hex4 (n : Nat) : String :=
  hexDigit (n / 4096 % 16) ++ hexDigit (n / 256 % 16) ++
    hexDigit (n / 16 % 16) ++ hexDigit (n % 16)

/-- String escaping as done by `serde_json`'s compact serializer. -/
def escapeChar (c : Char) : String :=
  if c = '"' then "\\\""
  else if c = '\\' then "\\\\"
  else if c = '\n' then "\\n"
  else if c = '\r' then "\\r"
  else if c = '\t' then "\\t"
  else if c = Char.ofNat 8 then "\\b"
  else if c = Char.ofNat 12 then "\\f"
  else if c.toNat < 32 then "\\u" ++ hex4 c.toNat
  else String.singleton c

/-- A JSON string literal with quotes and escaping. -/
def renderString (s : String) : String :=
  "\"" ++ String.join (s.data.map escapeChar) ++ "\""

mutual

/-- Compact JSON serialization, as `serde_json::to_vec` produces (before
UTF-8 encoding to bytes). -/
def Json.render : Json → String
  | .null => "null"
  | .bool true => "true"
  | .bool false => "false"
  | .num n => toString n
  | .str s => renderString s
  | .arr xs => "[" ++ Json.renderList xs ++ "]"
  | .obj fs => "\x7b" ++ Json.renderFields fs ++ "\x7d"

/-- Comma-separated serialization of array elements. -/
def Json.renderList : List Json → String
  | [] => ""
  | [x] => x.render
  | x :: y :: xs => x.render ++ "," ++ Json.renderList (y :: xs)

/-- Comma-separated serialization of object members. -/
def Json.renderFields : List (String × Json) → String
  | [] => ""
  | [kv] => renderString kv.1 ++ ":" ++ kv.2.render
  | kv :: kv2 :: fs =>
      renderString kv.1 ++ ":" ++ kv.2.render ++ "," ++
        Json.renderFields (kv2 :: fs)

end

/-- UTF-8 encoding of one code point (standard encoding, RFC 3629). -/
def utf8Char (n : Nat) : List Nat :=
  if n < 128 then [n]
  else if n < 2048 then [192 + n / 64, 128 + n % 64]
  else if n < 65536 then [224 + n / 4096, 128 + n / 64 % 64, 128 + n % 64]
  else [240 + n / 262144, 128 + n / 4096 % 64, 128 + n / 64 % 64, 128 + n % 64]

/-- UTF-8 bytes of a string, as `Vec<u8>` holds them in the Rust. -/
def strBytes (s : String) : List Nat :=
  (s.data.map (fun c => utf8Char c.toNat)).flatten

/-- The compression setting of the sink, mirroring the
`sinks::util::Compression` variants used by `build_request`:
`Compression::None` and `Compression::Gzip(Option<level>)`. -/
inductive Compression where
  | none
  | gzip (level : Option Nat)
deriving DecidableEq

/-- The `datadog_logs` sink configuration (`DatadogLogsConfig`), restricted
to the fields `build_request`, `get_endpoint` and the services read.
The `encoding`, `batch` and `request` fields select the service variant and
batching/retry settings and are not consulted by the request builder. -/
structure DatadogLogsConfig where
  endpoint : Option String
  api_key : String
  compression : Option Compression

/-- `DatadogLogsConfig::get_endpoint`: the configured endpoint, or the
built-in default. -/
def DatadogLogsConfig.get_endpoint (c : DatadogLogsConfig) : String :=
  c.endpoint.getD "https://http-intake.logs.datadoghq.eu/v1/input"

/-- An HTTP request as assembled by `http::Request::post` plus `.header`
calls and `.body`: headers are kept in the order the builder adds them. -/
structure HttpRequest where
  method : String
  uri : String
  headers : List (String × String)
  body : List Nat
deriving DecidableEq

/-- `DatadogLogsConfig::build_request`: POST to the endpoint with
`Content-Type`, `DD-API-KEY`, optional `Content-Encoding: gzip` and
`Content-Length` headers, gzipping the body if the configuration says so.
An absent `compression` field defaults to `Compression::Gzip(None)`; a gzip
level of `None` defaults to 6.  `gz lvl bytes` stands for the `flate2`
gzip encoder at compression level `lvl`. -/
def DatadogLogsConfig.build_request (c : DatadogLogsConfig)
    (gz : Nat → List Nat → List Nat) (body : List Nat) : HttpRequest :=
  let compression := c.compression.getD (Compression.gzip Option.none)
  let (encHeaders, finalBody) :=
    match compression with
    | Compression.none => ([], body)
    | Compression.gzip level =>
        let lvl := level.getD 6
        ([("Content-Encoding", "gzip")], gz lvl body)
  { method := "POST",
    uri := c.get_endpoint,
    headers := [("Content-Type", "text/plain"), ("DD-API-KEY", c.api_key)]
        ++ encHeaders ++ [("Content-Length", toString finalBody.length)],
    body := finalBody }

/-- `<DatadogLogsTextService as HttpSink>::build_request`: the batch items
(each a `Bytes` chunk) are concatenated in order into the request body. -/
def textBuildRequest (c : DatadogLogsConfig) (gz : Nat → List Nat → List Nat)
    (events : List (List Nat)) : HttpRequest :=
  c.build_request gz events.flatten

/-- `<DatadogLogsJsonService as HttpSink>::build_request`: the batch items
(JSON values) are serialized as one JSON array (`serde_json::to_vec` of the
`Vec`), and the bytes handed to the shared builder. -/
def jsonBuildRequest (c : DatadogLogsConfig) (gz : Nat → List Nat → List Nat)
    (events : List Json) : HttpRequest :=
  c.build_request gz (strBytes (Json.render (Json.arr events)))

/-- A log event as a field map (the sink only uses top-level key access):
`LogEvent` bindings from field name to value. -/
abbrev LogEvent : Type := List (String × Json)

/-- Value bound to key `k`, as `log.get`. -/
def lookupKey (l : LogEvent) (k : String) : Option Json :=
  (List.find? (fun kv => kv.1 = k) l).map (fun kv => kv.2)

/-- Drop the binding of key `k`, as the removal side of `log.remove`. -/
def eraseKey (l : LogEvent) (k : String) : LogEvent :=
  List.filter (fun kv => kv.1 ≠ k) l

/-- Bind key `k` to `v`, replacing any existing binding (`log.insert`). -/
def insertKey (l : LogEvent) (k : String) (v : Json) : LogEvent :=
  (k, v) :: eraseKey l k

/-- The global log schema's special field names (`log_schema()`), owned by
the configuration crate; the sink reads its three keys. -/
structure LogSchema where
  message_key : String
  timestamp_key : String
  host_key : String

/-- One `if let Some(v) = log.remove(src) { log.insert(dst, v); }` block of
the JSON service's `encode_event`. -/
def moveKey (l : LogEvent) (src : String) (dst : String) : LogEvent :=
  match lookupKey l src with
  | some v => insertKey (eraseKey l src) dst v
  | Option.none => l

/-- The field relocation performed by
`<DatadogLogsJsonService as HttpSink>::encode_event`: the schema message,
timestamp and host fields are removed and re-inserted under `message`,
`date` and `host`, in that order. -/
def jsonRelocate (schema : LogSchema) (log : LogEvent) : LogEvent :=
  moveKey (moveKey (moveKey log schema.message_key "message")
      schema.timestamp_key "date")
    schema.host_key "host"

/-- `<DatadogLogsJsonService as HttpSink>::encode_event`: relocate the
schema fields, apply the encoding rules
(`self.config.encoding.apply_rules`, modelled by the parameter `ar` since
it lives in the shared encoding module), then `json!` the log map.
The result is always `Some`. -/
def jsonEncodeEvent (schema : LogSchema) (ar : LogEvent → LogEvent)
    (log : LogEvent) : Option Json :=
  some (Json.obj (ar (jsonRelocate schema log)))

/-- Modelled from the spec: `<DatadogLogsTextService as HttpSink>::encode_event`
delegates to the shared `sinks::util::encode_event` helper, whose code is not
in this repository.  Per the spec's line-encoding scenario ("each body equal
to `line + \"\\n\"`") and the adapter contract (`encode_event` returns `None`
to drop an unrepresentable event), the text encoding of an event is the
bytes of its schema message field followed by a newline, and an event
without a string message is dropped. -/
def textEncodeEvent (schema : LogSchema) (log : LogEvent) :
    Option (List Nat) :=
  match lookupKey log schema.message_key with
  | some (Json.str line) => some (strBytes (line ++ "\n"))
  | _ => Option.none

/-- The canonical reason phrase `http::StatusCode`'s `Display` appends to
the numeric code, for the codes this development mentions. -/
def statusReason (s : Nat) : String :=
  if s = 200 then "OK"
  else if s = 202 then "Accepted"
  else if s = 401 then "Unauthorized"
  else if s = 403 then "Forbidden"
  else if s = 500 then "Internal Server Error"
  else if s = 503 then "Service Unavailable"
  else "<unknown status code>"

/-- `format!("{}", status)` for an `http::StatusCode`: the numeric code,
a space, and the canonical reason. -/
def statusDisplay (s : Nat) : String :=
  toString s ++ " " ++ statusReason s

/-- The healthcheck's interpretation of the response (`match status` in
`healthcheck`): 200 is success; 401 parses the body as JSON (a parse
failure propagates via `?`) and reports the body's string `error` field,
or a fixed message when the parsed value is not an object with a string
`error` field; every other status reports the unexpected status and body.
`parse` stands for `serde_json::from_slice` on the body bytes. -/
def healthcheckInterpret (parse : String → Except String Json)
    (status : Nat) (body : String) : Except String Unit :=
  if status = 200 then Except.ok ()
  else if status = 401 then
    match parse body with
    | Except.error e => Except.error e
    | Except.ok j =>
        Except.error (match j with
          | Json.obj fs =>
              match lookupKey fs "error" with
              | some (Json.str s) => s
              | _ => "Token is not valid, 401 returned."
          | _ => "Token is not valid, 401 returned.")
  else
    Except.error ("Server returned unexpected error status: " ++
      statusDisplay status ++ " body: " ++ body)

/-- A transport response: status code and body (bytes read by
`hyper::body::to_bytes`, here already as text). -/
structure HttpResponse where
  status : Nat
  body : String

/-- The `healthcheck` function over a stub transport script: the single
`client.send(req)` consumes the first scripted response (an empty script is
a transport error surfaced by `?`), and the response is interpreted by the
status match.  `req` is the request the healthcheck sends. -/
def healthcheckRun (parse : String → Except String Json) (_req : HttpRequest)
    (responses : List HttpResponse) : Except String Unit :=
  match responses with
  | [] => Except.error "error sending healthcheck request"
  | r :: _ => healthcheckInterpret parse r.status r.body

/-- The healthcheck of a text-encoding sink: the request is built by the
sink's `build_request` on the empty item list (`sink.build_request(Vec::new())`). -/
def textHealthcheck (c : DatadogLogsConfig) (gz : Nat → List Nat → List Nat)
    (parse : String → Except String Json) (responses : List HttpResponse) :
    Except String Unit :=
  healthcheckRun parse (textBuildRequest c gz []) responses

/-- The healthcheck of a JSON-encoding sink: the request is built by the
sink's `build_request` on the empty item list. -/
def jsonHealthcheck (c : DatadogLogsConfig) (gz : Nat → List Nat → List Nat)
    (parse : String → Except String Json) (responses : List HttpResponse) :
    Except String Unit :=
  healthcheckRun parse (jsonBuildRequest c gz []) responses

theorem lookupKey_cons (kv : String × Json) (l : LogEvent) (k : String) :
    lookupKey (kv :: l) k = if kv.1 = k then some kv.2 else lookupKey l k := by
  by_cases h : kv.1 = k
  · simp [lookupKey, List.find?, h]
  · simp [lookupKey, List.find?, h]

theorem lookupKey_insertKey_self (l : LogEvent) (k : String) (v : Json) :
    lookupKey (insertKey l k v) k = some v := by
  simp [insertKey, lookupKey_cons]

theorem lookupKey_eraseKey_ne (l : LogEvent) (k k' : String) (h : k' ≠ k) :
    lookupKey (eraseKey l k) k' = lookupKey l k' := by
  induction l with
  | nil => rfl
  | cons kv tl ih =>
    by_cases hk : kv.1 = k
    · have hk' : kv.1 ≠ k' := by
        rw [hk]; exact fun e => h e.symm
      have he : eraseKey (kv :: tl) k = eraseKey tl k := by
        simp [eraseKey, List.filter, hk]
      rw [he, ih, lookupKey_cons]
      simp [hk']
    · have he : eraseKey (kv :: tl) k = kv :: eraseKey tl k := by
        simp [eraseKey, List.filter, hk]
      rw [he, lookupKey_cons, lookupKey_cons, ih]

theorem lookupKey_insertKey_ne (l : LogEvent) (k k' : String) (v : Json)
    (h : k' ≠ k) :
    lookupKey (insertKey l k v) k' = lookupKey l k' := by
  have hk : k ≠ k' := fun e => h e.symm
  simp [insertKey, lookupKey_cons, hk]
  exact lookupKey_eraseKey_ne l k k' h

/-- A stub standing in for the gzip encoder in concrete witnesses: it
records the level in front of the input, so level and transformation are
observable. -/
def gzStub : Nat → List Nat → List Nat := fun lvl b => lvl :: b

/-- A sink configuration whose `compression` field is absent. -/
def cfgNoCompressionField : DatadogLogsConfig :=
  { endpoint := Option.none, api_key := "key", compression := Option.none }

/-- A sink configuration with compression explicitly set to `none`. -/
def cfgCompressionNone : DatadogLogsConfig :=
  { endpoint := Option.none, api_key := "key",
    compression := some Compression.none }

/-- A sink configuration with gzip compression enabled and no level. -/
def cfgGzipDefault : DatadogLogsConfig :=
  { endpoint := Option.none, api_key := "key",
    compression := some (Compression.gzip Option.none) }

/-- Claim C4: for every sink instance with gzip compression enabled but no
compression level specified, `build_request` compresses the body at gzip
level 6. -/
theorem gzip_default_level_six (c : DatadogLogsConfig)
    (gz : Nat → List Nat → List Nat) (body : List Nat)
    (h : c.compression = some (Compression.gzip Option.none)) :
    (c.build_request gz body).body = gz 6 body := by
  simp [DatadogLogsConfig.build_request, h]

/-- Witness for C4 at a concrete configuration: with the stub encoder the
body `[7]` becomes `gzStub 6 [7] = [6, 7]`. -/
theorem gzip_default_level_six_witness :
    (cfgGzipDefault.build_request gzStub [7]).body = gzStub 6 [7] :=
  gzip_default_level_six cfgGzipDefault gzStub [7] rfl

/-- Claim C9: every request built by `build_request` carries the header
`Content-Type: text/plain`, for the text-encoding and the JSON-encoding
sink variants alike. -/
theorem content_type_always_text_plain (c : DatadogLogsConfig)
    (gz : Nat → List Nat → List Nat) (itemsT : List (List Nat))
    (itemsJ : List Json) :
    ("Content-Type", "text/plain") ∈ (textBuildRequest c gz itemsT).headers ∧
    ("Content-Type", "text/plain") ∈ (jsonBuildRequest c gz itemsJ).headers := by
  constructor <;>
  · cases hc : c.compression with
    | none =>
        simp [textBuildRequest, jsonBuildRequest,
          DatadogLogsConfig.build_request, hc]
    | some comp =>
        cases comp <;>
          simp [textBuildRequest, jsonBuildRequest,
            DatadogLogsConfig.build_request, hc]

/-- Claim C2 counterexample: for a sink configuration that does not enable
compression (the `compression` field is absent), `build_request` still
transforms the body (it gzips it at the default level) and sets the
`Content-Encoding: gzip` header. -/
theorem compression_default_gzip_counterexample :
    (cfgNoCompressionField.build_request gzStub [10]).body ≠ [10] ∧
    ("Content-Encoding", "gzip") ∈
      (cfgNoCompressionField.build_request gzStub [10]).headers := by
  constructor
  · decide
  · decide

/-- Claim C2 (amended): the batch body is left byte-for-byte unchanged and
no `Content-Encoding` header is set exactly when the configuration
explicitly sets compression to `none`; when the `compression` field is
omitted the sink defaults to gzip at level 6 and sets
`Content-Encoding: gzip`. -/
theorem compression_explicit_optout (c : DatadogLogsConfig)
    (gz : Nat → List Nat → List Nat) (body : List Nat) :
    (c.compression = some Compression.none →
      (c.build_request gz body).body = body ∧
      ∀ v, ("Content-Encoding", v) ∉ (c.build_request gz body).headers) ∧
    (c.compression = Option.none →
      (c.build_request gz body).body = gz 6 body ∧
      ("Content-Encoding", "gzip") ∈ (c.build_request gz body).headers) := by
  constructor
  · intro h
    constructor
    · simp [DatadogLogsConfig.build_request, h]
    · intro v
      simp [DatadogLogsConfig.build_request, h]
  · intro h
    constructor
    · simp [DatadogLogsConfig.build_request, h]
    · simp [DatadogLogsConfig.build_request, h]

/-- Witness for the amended C2 at two concrete configurations: explicit
`none` passes the body through, an absent field gzips it. -/
theorem compression_explicit_optout_witness :
    (cfgCompressionNone.build_request gzStub [10]).body = [10] ∧
    ("Content-Encoding", "gzip") ∈
      (cfgNoCompressionField.build_request gzStub [10]).headers :=
  ⟨((compression_explicit_optout cfgCompressionNone gzStub [10]).1 rfl).1,
   ((compression_explicit_optout cfgNoCompressionField gzStub [10]).2 rfl).2⟩

/-- Claim C5: every request built by `build_request` is a POST to the
configured endpoint (or the built-in default), with a `Content-Type`
header, the `DD-API-KEY` header set to the configured api key, a
`Content-Length` header equal to the byte length of the final body, and a
`Content-Encoding: gzip` header exactly when gzip compression is applied
(that is, whenever the effective compression setting is not `none`). -/
theorem build_request_http_contract (c : DatadogLogsConfig)
    (gz : Nat → List Nat → List Nat) (body : List Nat) :
    (c.build_request gz body).method = "POST" ∧
    (c.build_request gz body).uri =
      c.endpoint.getD "https://http-intake.logs.datadoghq.eu/v1/input" ∧
    ("Content-Type", "text/plain") ∈ (c.build_request gz body).headers ∧
    ("DD-API-KEY", c.api_key) ∈ (c.build_request gz body).headers ∧
    ("Content-Length", toString (c.build_request gz body).body.length) ∈
      (c.build_request gz body).headers ∧
    ((("Content-Encoding", "gzip") ∈ (c.build_request gz body).headers) ↔
      c.compression.getD (Compression.gzip Option.none) ≠ Compression.none) := by
  cases hc : c.compression with
  | none =>
      simp [DatadogLogsConfig.build_request, DatadogLogsConfig.get_endpoint, hc]
  | some comp =>
      cases comp <;>
        simp [DatadogLogsConfig.build_request, DatadogLogsConfig.get_endpoint, hc]

/-- Claim C6: the healthcheck request is the sink's `build_request` applied
to the empty item list for either service (the empty text batch is the
empty concatenation; the empty JSON batch serializes as the empty array),
and the healthcheck consults only the first transport response: whatever
follows in the transport script never changes the outcome (a single
attempt, no retry). -/
theorem healthcheck_empty_batch_single_attempt (c : DatadogLogsConfig)
    (gz : Nat → List Nat → List Nat) (parse : String → Except String Json)
    (r : HttpResponse) (rest rest' : List HttpResponse) :
    textHealthcheck c gz parse (r :: rest) =
      textHealthcheck c gz parse (r :: rest') ∧
    jsonHealthcheck c gz parse (r :: rest) =
      jsonHealthcheck c gz parse (r :: rest') ∧
    textBuildRequest c gz [] = c.build_request gz [] ∧
    jsonBuildRequest c gz [] = c.build_request gz (strBytes "[]") := by
  exact ⟨rfl, rfl, rfl, rfl⟩

/-- Claim C7: for the text service with compression explicitly off, the
request body is the in-order concatenation of the batch items' bytes, and
the single-item batch holding one encoded line yields the body
`line + "\n"`. -/
theorem text_body_is_concatenation (c : DatadogLogsConfig)
    (gz : Nat → List Nat → List Nat) (items : List (List Nat))
    (hc : c.compression = some Compression.none) :
    (textBuildRequest c gz items).body = items.flatten ∧
    (∀ (schema : LogSchema) (log : LogEvent) (line : String)
        (item : List Nat),
      textEncodeEvent schema log = some item →
      lookupKey log schema.message_key = some (Json.str line) →
      (textBuildRequest c gz [item]).body = strBytes (line ++ "\n")) := by
  constructor
  · simp [textBuildRequest, DatadogLogsConfig.build_request, hc]
  · intro schema log line item henc hmsg
    have hi : item = strBytes (line ++ "\n") := by
      rw [textEncodeEvent, hmsg] at henc
      exact (Option.some.injEq _ _).mp henc.symm
    subst hi
    simp [textBuildRequest, DatadogLogsConfig.build_request, hc]

/-- A one-field log event carrying the message line used in witnesses. -/
def logHello : LogEvent := [("message", Json.str "hello")]

/-- The default log schema: message, timestamp and host keys as the
configuration crate defines them. -/
def defaultSchema : LogSchema :=
  { message_key := "message", timestamp_key := "timestamp",
    host_key := "host" }

/-- Witness for C7 at a concrete sink and event: the single-item batch for
the line `hello` produces the body bytes of `"hello\n"`. -/
theorem text_body_is_concatenation_witness :
    (textBuildRequest cfgCompressionNone gzStub
        [strBytes ("hello" ++ "\n")]).body = strBytes ("hello" ++ "\n") :=
  (text_body_is_concatenation cfgCompressionNone gzStub
      [strBytes ("hello" ++ "\n")] rfl).2
    defaultSchema logHello "hello" (strBytes ("hello" ++ "\n")) rfl rfl

theorem lookupKey_moveKey_dst (l : LogEvent) (src dst : String) (v : Json)
    (h : lookupKey l src = some v) :
    lookupKey (moveKey l src dst) dst = some v := by
  simp [moveKey, h, lookupKey_insertKey_self]

theorem lookupKey_moveKey_other (l : LogEvent) (src dst k : String)
    (hk1 : k ≠ src) (hk2 : k ≠ dst) :
    lookupKey (moveKey l src dst) k = lookupKey l k := by
  cases h : lookupKey l src with
  | none => simp [moveKey, h]
  | some v =>
      simp only [moveKey, h]
      rw [lookupKey_insertKey_ne _ _ _ _ hk2]
      exact lookupKey_eraseKey_ne _ _ _ hk1

/-- Claim C10: the JSON service's `encode_event` always returns `Some`
(no event is silently dropped by this variant), and — for a schema whose
three keys are pairwise distinct and do not collide with the target names
of later relocation steps — it relocates the schema message, timestamp and
host fields to the keys `message`, `date` and `host` respectively before
the encoding rules and serialization are applied. -/
theorem json_encode_event_total_and_relocating (schema : LogSchema)
    (ar : LogEvent → LogEvent) (log : LogEvent)
    (hmt : schema.message_key ≠ schema.timestamp_key)
    (hmh : schema.message_key ≠ schema.host_key)
    (hth : schema.timestamp_key ≠ schema.host_key)
    (htm : schema.timestamp_key ≠ "message")
    (hhm : schema.host_key ≠ "message")
    (hhd : schema.host_key ≠ "date") :
    (jsonEncodeEvent schema ar log).isSome = true ∧
    (∀ m, lookupKey log schema.message_key = some m →
      lookupKey (jsonRelocate schema log) "message" = some m) ∧
    (∀ t, lookupKey log schema.timestamp_key = some t →
      lookupKey (jsonRelocate schema log) "date" = some t) ∧
    (∀ h, lookupKey log schema.host_key = some h →
      lookupKey (jsonRelocate schema log) "host" = some h) := by
  refine ⟨rfl, ?_, ?_, ?_⟩
  · intro m hm
    rw [jsonRelocate,
      lookupKey_moveKey_other _ _ _ _ (fun e => hhm e.symm) (by decide),
      lookupKey_moveKey_other _ _ _ _ (fun e => htm e.symm) (by decide)]
    exact lookupKey_moveKey_dst _ _ _ _ hm
  · intro t ht
    rw [jsonRelocate,
      lookupKey_moveKey_other _ _ _ _ (fun e => hhd e.symm) (by decide)]
    refine lookupKey_moveKey_dst _ _ _ _ ?_
    rw [lookupKey_moveKey_other _ _ _ _ (fun e => hmt e.symm) htm]
    exact ht
  · intro h hh
    rw [jsonRelocate]
    refine lookupKey_moveKey_dst _ _ _ _ ?_
    rw [lookupKey_moveKey_other _ _ _ _ (fun e => hth e.symm) hhd,
      lookupKey_moveKey_other _ _ _ _ (fun e => hmh e.symm) hhm]
    exact hh

/-- A log event carrying message, timestamp and host fields under the
default schema keys. -/
def logFull : LogEvent :=
  [("message", Json.str "hi"), ("timestamp", Json.str "t0"),
   ("host", Json.str "h0")]

/-- Witness for C10 at the default schema and a concrete event: the
encoding is `Some` and the three fields land under `message`, `date` and
`host`. -/
theorem json_encode_event_total_and_relocating_witness :
    (jsonEncodeEvent defaultSchema id logFull).isSome = true ∧
    lookupKey (jsonRelocate defaultSchema logFull) "message" =
      some (Json.str "hi") ∧
    lookupKey (jsonRelocate defaultSchema logFull) "date" =
      some (Json.str "t0") ∧
    lookupKey (jsonRelocate defaultSchema logFull) "host" =
      some (Json.str "h0") :=
  have h := json_encode_event_total_and_relocating defaultSchema id logFull
    (by decide) (by decide) (by decide) (by decide) (by decide) (by decide)
  ⟨h.1, h.2.1 _ rfl, h.2.2.1 _ rfl, h.2.2.2 _ rfl⟩

/-- Claim C8: for the JSON service with compression explicitly off, the
request body is the JSON serialization of the array of the batch's items
(array-wrapping framing); a single-item batch yields a one-element array;
and an encoded event carrying a message (under a schema whose timestamp
and host keys are not named `message`, with the default empty encoding
rules) is an object whose `message` field is the original message value. -/
theorem json_body_is_array_serialization (c : DatadogLogsConfig)
    (gz : Nat → List Nat → List Nat) (items : List Json)
    (hc : c.compression = some Compression.none) :
    (jsonBuildRequest c gz items).body =
      strBytes (Json.render (Json.arr items)) ∧
    (∀ j : Json, (jsonBuildRequest c gz [j]).body =
      strBytes ("[" ++ Json.render j ++ "]")) ∧
    (∀ (schema : LogSchema) (log : LogEvent) (m : Json),
      schema.timestamp_key ≠ "message" → schema.host_key ≠ "message" →
      lookupKey log schema.message_key = some m →
      ∃ fs, jsonEncodeEvent schema id log = some (Json.obj fs) ∧
        lookupKey fs "message" = some m) := by
  refine ⟨?_, ?_, ?_⟩
  · simp [jsonBuildRequest, DatadogLogsConfig.build_request, hc]
  · intro j
    simp [jsonBuildRequest, DatadogLogsConfig.build_request, hc,
      Json.render, Json.renderList]
  · intro schema log m htm hhm hm
    refine ⟨jsonRelocate schema log, rfl, ?_⟩
    rw [jsonRelocate,
      lookupKey_moveKey_other _ _ _ _ (fun e => hhm e.symm) (by decide),
      lookupKey_moveKey_other _ _ _ _ (fun e => htm e.symm) (by decide)]
    exact lookupKey_moveKey_dst _ _ _ _ hm

/-- Witness for C8 at a concrete sink, batch and event. -/
theorem json_body_is_array_serialization_witness :
    (jsonBuildRequest cfgCompressionNone gzStub [Json.str "hi"]).body =
      strBytes ("[" ++ Json.render (Json.str "hi") ++ "]") ∧
    (∃ fs, jsonEncodeEvent defaultSchema id logHello =
        some (Json.obj fs) ∧
      lookupKey fs "message" = some (Json.str "hello")) :=
  ⟨(json_body_is_array_serialization cfgCompressionNone gzStub
      [Json.str "hi"] rfl).2.1 (Json.str "hi"),
   (json_body_is_array_serialization cfgCompressionNone gzStub
      [Json.str "hi"] rfl).2.2 defaultSchema logHello (Json.str "hello")
     (by decide) (by decide) rfl⟩

/-- A parse stub standing for `serde_json::from_slice` succeeding on the
body `{"error":"invalid token"}`. -/
def parseErrorField : String → Except String Json :=
  fun _ => Except.ok (Json.obj [("error", Json.str "invalid token")])

/-- A parse stub standing for `serde_json::from_slice` failing on a body
that is not JSON. -/
def parseFailStub : String → Except String Json :=
  fun _ => Except.error "expected value at line 1 column 1"

/-- Claim C1 counterexample: a 403 response, even with the body
`{"error":"invalid token"}` (parsed successfully by the stub), is reported
through the catch-all unexpected-status arm, not as an
authentication-failure error: neither the body-provided message nor the
generic 401 message is returned. -/
theorem healthcheck_403_not_auth_failure :
    healthcheckInterpret parseErrorField 403
        "\x7b\"error\":\"invalid token\"\x7d" =
      Except.error
        ("Server returned unexpected error status: 403 Forbidden body: " ++
          "\x7b\"error\":\"invalid token\"\x7d") ∧
    ("Server returned unexpected error status: 403 Forbidden body: " ++
        "\x7b\"error\":\"invalid token\"\x7d") ≠ "invalid token" ∧
    ("Server returned unexpected error status: 403 Forbidden body: " ++
        "\x7b\"error\":\"invalid token\"\x7d") ≠
      "Token is not valid, 401 returned." := by
  refine ⟨rfl, ?_, ?_⟩ <;> decide

/-- Claim C1 (amended): status 200 makes the healthcheck succeed; status
401 makes it fail with the authentication-oriented error derived from the
body (detailed in the 401-message theorem); and any other status — 403 and
non-200 2xx codes included — makes it fail with the unexpected-status
error, whose message contains the numeric status code and the response
body. -/
theorem healthcheck_status_interpretation
    (parse : String → Except String Json) (status : Nat) (body : String) :
    (status = 200 → healthcheckInterpret parse status body = Except.ok ()) ∧
    (status = 401 →
      ∀ r, healthcheckInterpret parse status body ≠ Except.ok r) ∧
    (status ≠ 200 → status ≠ 401 →
      healthcheckInterpret parse status body =
        Except.error ("Server returned unexpected error status: " ++
          (toString status ++ " " ++ statusReason status) ++
          " body: " ++ body)) := by
  refine ⟨?_, ?_, ?_⟩
  · intro h
    simp [healthcheckInterpret, h]
  · intro h r
    subst h
    simp only [healthcheckInterpret]
    cases hp : parse body with
    | error e => simp
    | ok j => simp
  · intro h200 h401
    simp [healthcheckInterpret, h200, h401, statusDisplay]

/-- Witness for the amended C1: a 500 response with body `oops` yields the
unexpected-status message carrying the code and the body. -/
theorem healthcheck_status_interpretation_witness :
    healthcheckInterpret parseFailStub 500 "oops" =
      Except.error
        "Server returned unexpected error status: 500 Internal Server Error body: oops" :=
  ((healthcheck_status_interpretation parseFailStub 500 "oops").2.2
      (by decide) (by decide)).trans rfl

/-- Claim C3 counterexample: a 401 response whose body does not parse as
JSON is reported with the propagated parse error, not with the fixed
generic message. -/
theorem healthcheck_401_parse_error_not_generic :
    healthcheckInterpret parseFailStub 401 "oops" =
      Except.error "expected value at line 1 column 1" ∧
    "expected value at line 1 column 1" ≠
      "Token is not valid, 401 returned." := by
  exact ⟨rfl, by decide⟩

/-- Claim C3 (amended): for a 401 response, when the body parses as a JSON
object with a string `error` field the returned message is exactly that
string; when the body parses as JSON without such a field the returned
message is the fixed generic one; and when the body fails to parse as
JSON the healthcheck returns the propagated parse error instead. -/
theorem healthcheck_401_message (parse : String → Except String Json)
    (body : String) :
    (∀ fs s, parse body = Except.ok (Json.obj fs) →
      lookupKey fs "error" = some (Json.str s) →
      healthcheckInterpret parse 401 body = Except.error s) ∧
    (∀ j, parse body = Except.ok j →
      (∀ fs, j = Json.obj fs → ∀ s, lookupKey fs "error" ≠ some (Json.str s)) →
      healthcheckInterpret parse 401 body =
        Except.error "Token is not valid, 401 returned.") ∧
    (∀ e, parse body = Except.error e →
      healthcheckInterpret parse 401 body = Except.error e) := by
  refine ⟨?_, ?_, ?_⟩
  · intro fs s hp hf
    simp [healthcheckInterpret, hp, hf]
  · intro j hp hnone
    simp only [healthcheckInterpret, hp]
    cases j with
    | obj fs =>
        cases hf : lookupKey fs "error" with
        | none => simp [hf]
        | some v =>
            cases v with
            | str s => exact absurd hf (hnone fs rfl s)
            | null => simp [hf]
            | bool b => simp [hf]
            | num n => simp [hf]
            | arr xs => simp [hf]
            | obj gs => simp [hf]
    | null => simp
    | bool b => simp
    | num n => simp
    | str s => simp
    | arr xs => simp
  · intro e hp
    simp [healthcheckInterpret, hp]

/-- Witness for the amended C3: with the stub parse producing the object
`{"error":"invalid token"}`, the healthcheck reports exactly
`invalid token`. -/
theorem healthcheck_401_message_witness :
    healthcheckInterpret parseErrorField 401 "irrelevant" =
      Except.error "invalid token" :=
  (healthcheck_401_message parseErrorField "irrelevant").1
    [("error", Json.str "invalid token")] "invalid token" rfl rfl
